import Mathlib

/-
Verification of the data-profiling-utility repository.

The repository ships the dashboard UI (src/data-profiling-ui, src/unnamed
part_002 and friends), a wireframe mock of the profiling engine
(src/ui-mock/ui_wireframe.tsx) and the requirements / rules-table documents;
the Python backend that computes the actual profiles is not part of the
source tree.  Everything below is a shallow embedding: TypeScript functions
become Lean functions over explicit data, JavaScript numbers become
rationals or integers, Math.random becomes an explicit stream of rational
draws, and components that exist only in the documentation are modelled
from the spec (each such definition says so in its doc comment).
-/

/-- Quality grades used throughout the UI and the rules table. -/
inductive Grade where
  | gold
  | silver
  | bronze
deriving DecidableEq

/-- PII risk buckets (Low / Medium / High). -/
inductive Risk where
  | low
  | medium
  | high
deriving DecidableEq

/-- JavaScript Math.round: round half towards positive infinity. -/
def jsRound (q : ℚ) : ℤ := ⌊q + 1/2⌋

/-- JavaScript Number.toFixed(2) on a nonnegative number, kept as a rational
with two decimal digits. -/
def jsToFixed2 (q : ℚ) : ℚ := (⌊q * 100 + 1/2⌋ : ℚ) / 100

/-- JavaScript division, with division by zero made explicit (`none`
standing for the NaN/Infinity result a zero denominator would produce). -/
def jsDiv (a b : ℚ) : Option ℚ := if b = 0 then none else some (a / b)

/- Embedding of src/data-profiling-ui/src/pages/Dashboard.tsx.
That file declares its own local ColumnStats/Dataset interfaces
(lines 9-25); only those fields appear here. -/

/-- ColumnStats as declared locally in Dashboard.tsx (lines 9-16). -/
structure DashColumn where
  column_name : String
  data_type : String
  null_count : ℕ
  null_percentage : ℚ
  unique_count : ℕ
  unique_percentage : ℚ
deriving DecidableEq

/-- Dataset as declared locally in Dashboard.tsx (lines 18-25);
profiled_at is an opaque string to the computation and is kept as such. -/
structure DashDataset where
  dataset_name : String
  row_count : ℕ
  column_count : ℕ
  file_size_bytes : ℕ
  columns : List DashColumn
  profiled_at : String
deriving DecidableEq

/-- calculateQualityScore from Dashboard.tsx (lines 99-107): 0 for an empty
column list, otherwise Math.round of the reduce-accumulated average of
(100 - null_percentage).  The division is rendered with jsDiv so that a
division by zero would surface as `none`. -/
def calculateQualityScore (d : DashDataset) : Option ℤ :=
  if d.columns.length = 0 then some 0
  else
    (jsDiv (d.columns.foldl (fun sum col => sum + (100 - col.null_percentage)) 0)
        (d.columns.length : ℚ)).map jsRound

/-- getQualityGrade from Dashboard.tsx (lines 109-113): Gold at score >= 85,
Silver at score >= 70, Bronze otherwise. -/
def getQualityGrade (score : ℚ) : Grade :=
  if score ≥ 85 then Grade.gold
  else if score ≥ 70 then Grade.silver
  else Grade.bronze

/- Embedding of src/unnamed/part_002 (the Dashboard variant that consumes
src/data-profiling-ui/src/types/profiling.ts). -/

/-- ColumnQualityMetrics from types/profiling.ts (lines 43-50). -/
structure ColumnQualityMetrics where
  completeness_percentage : ℚ
  validity_percentage : ℚ
  consistency_score : ℚ
  conformity_rate : ℚ
  quality_score : ℚ
  quality_grade : Grade
deriving DecidableEq

/-- DatasetQualityMetrics from types/profiling.ts (lines 98-103). -/
structure DatasetQualityMetrics where
  overall_completeness : ℚ
  overall_quality_score : ℚ
  quality_grade : Grade
  pii_risk_score : ℚ
deriving DecidableEq

/-- The fields of the profiling.ts ColumnStats record used by the part_002
Dashboard computations (column_name, null_percentage, quality_metrics). -/
structure ProfColumn where
  column_name : String
  null_percentage : ℚ
  quality_metrics : Option ColumnQualityMetrics
deriving DecidableEq

/-- The fields of the profiling.ts Dataset record used by the part_002
Dashboard computations. -/
structure ProfDataset where
  dataset_name : String
  row_count : ℕ
  column_count : ℕ
  columns : List ProfColumn
  dataset_quality : Option DatasetQualityMetrics
deriving DecidableEq

/-- The completeness fallback shared by part_002's calculateQualityScore
(lines 69-73): 0 for an empty column list, else Math.round of the average
of (100 - null_percentage). -/
def fallbackScore (d : ProfDataset) : ℤ :=
  if d.columns.length = 0 then 0
  else
    jsRound ((d.columns.foldl (fun sum col => sum + (100 - col.null_percentage)) 0)
      / (d.columns.length : ℚ))

/-- calculateQualityScore from part_002 (lines 62-74): use the backend
overall_quality_score when the optional chain yields a truthy (nonzero)
value, otherwise fall back to the completeness average. -/
def calculateQualityScore2 (d : ProfDataset) : ℤ :=
  match d.dataset_quality with
  | some q => if q.overall_quality_score ≠ 0 then jsRound q.overall_quality_score
              else fallbackScore d
  | none => fallbackScore d

/-- getQualityGrade from part_002 (lines 76-87): use the backend grade when
present, otherwise bucket the computed score at 90 / 70. -/
def getQualityGrade2 (d : ProfDataset) : Grade :=
  match d.dataset_quality with
  | some q => q.quality_grade
  | none =>
    if calculateQualityScore2 d ≥ 90 then Grade.gold
    else if calculateQualityScore2 d ≥ 70 then Grade.silver
    else Grade.bronze

/-- The PII risk label rendered by part_002 line 241 (and the matching
colour bucketing in EntityView.tsx lines 84-94), applied to a 0-100 risk
score: High above 50, Medium above 20, Low otherwise (strict comparisons). -/
def uiPIIRiskLabel (score : ℚ) : Risk :=
  if score > 50 then Risk.high
  else if score > 20 then Risk.medium
  else Risk.low

/-- Grade computation from src/ui-mock/ui_wireframe.tsx line 24:
Gold at >= 90, Silver at >= 70, Bronze otherwise. -/
def wireframeGrade (qualityScore : ℤ) : Grade :=
  if qualityScore ≥ 90 then Grade.gold
  else if qualityScore ≥ 70 then Grade.silver
  else Grade.bronze

/- Embedding of generateProfileData from src/ui-mock/ui_wireframe.tsx
(lines 21-48).  Each call to Math.random() is replaced by the next element
of an explicit stream s : ℕ → ℚ of draws (each intended to lie in [0,1));
draw indices follow the evaluation order of the source.  The two
Date.now() timestamp fields are outside the embedding. -/

/-- The dataType choices of the mock generator (ui_wireframe.tsx line 28). -/
def mockDataTypes : List String :=
  ["VARCHAR", "INTEGER", "DATE", "DECIMAL", "BOOLEAN"]

/-- One simulated column of the mock generator (ui_wireframe.tsx
lines 26-36). -/
structure MockColumn where
  name : String
  dataType : String
  nullCount : ℤ
  nullPercentage : ℚ
  uniqueCount : ℤ
  distinctCount : ℤ
  qualityScore : ℤ
  hasPII : Bool
  isCandidateKey : Bool
deriving DecidableEq

/-- The column builder inside Array.from (ui_wireframe.tsx lines 26-36).
Column i consumes the eight draws s (2+8*i) .. s (2+8*i+7), in the order
the object literal evaluates them. -/
def mkMockColumn (rowCount : ℕ) (s : ℕ → ℚ) (i : ℕ) : MockColumn :=
  let b := 2 + 8 * i
  { name := "col_" ++ toString (i + 1)
    dataType := mockDataTypes.getD (⌊s b * 5⌋).toNat "VARCHAR"
    nullCount := ⌊s (b + 1) * rowCount * (15/100)⌋
    nullPercentage := jsToFixed2 (s (b + 2) * 15)
    uniqueCount := ⌊(rowCount : ℚ) * (6/10 + s (b + 3) * (4/10))⌋
    distinctCount := ⌊(rowCount : ℚ) * (5/10 + s (b + 4) * (4/10))⌋
    qualityScore := ⌊s (b + 5) * 30⌋ + 65
    hasPII := decide (s (b + 6) > 8/10)
    isCandidateKey := decide (s (b + 7) > 9/10) }

/-- The simulated entity profile returned by generateProfileData
(ui_wireframe.tsx lines 38-47), minus the two wall-clock timestamps. -/
structure MockProfile where
  entityName : String
  rowCount : ℕ
  columnCount : ℕ
  qualityScore : ℤ
  grade : Grade
  columns : List MockColumn
deriving DecidableEq

/-- generateProfileData (ui_wireframe.tsx lines 21-48) with the Math.random
stream made explicit: draw 0 fixes the column count, draw 1 the entity
quality score, and each column i consumes the eight draws starting at
index 2 + 8*i. -/
def generateProfileData (entityName : String) (rowCount : ℕ) (s : ℕ → ℚ) :
    MockProfile :=
  let columnCount := (⌊s 0 * 15⌋).toNat + 5
  let qualityScore := ⌊s 1 * 30⌋ + 65
  { entityName := entityName
    rowCount := rowCount
    columnCount := columnCount
    qualityScore := qualityScore
    grade := wireframeGrade qualityScore
    columns := (List.range columnCount).map (mkMockColumn rowCount s) }

/- Spec-modelled components.  The Python backend under backend/ is not part
of the source tree (only its start script, the TypeScript declarations of
its output in types/profiling.ts, and the requirements / rules-table
documents are), so the engine components below are modelled from the spec
and the rules table, as their doc comments state.  A column is a list of
nullable cells, a batch a list of named columns. -/

/-- Modelled from the spec: the Column Statistics Analyzer of spec 4.2 is
not in src/.  total_count is the raw cell count of the column,
nulls included. -/
def colTotalCount {α : Type} (vs : List (Option α)) : ℕ := vs.length

/-- Modelled from the spec: the non-null values of a column, in input
order, as consumed by the 4.2 statistics (nulls excluded from
unique/distinct there). -/
def colNonNull {α : Type} (vs : List (Option α)) : List α := vs.filterMap id

/-- Modelled from the spec: distinct_count (nunique over non-null values),
spec 4.2. -/
def colDistinctCount {α : Type} [DecidableEq α] (vs : List (Option α)) : ℕ :=
  (colNonNull vs).dedup.length

/-- Modelled from the spec: unique_count (non-null values occurring exactly
once), spec 4.2. -/
def colUniqueCount {α : Type} [DecidableEq α] (vs : List (Option α)) : ℕ :=
  ((colNonNull vs).dedup.filter (fun x => (colNonNull vs).count x = 1)).length

/-- Modelled from the spec: duplicate_count = total_count - distinct_count,
spec 4.2. -/
def colDuplicateCount {α : Type} [DecidableEq α] (vs : List (Option α)) : ℕ :=
  colTotalCount vs - colDistinctCount vs

/-- Modelled from the spec: nunique counting null as a value
(pandas nunique(dropna=False) of rules D4.1 / C6.2), used by the Candidate
Key Discoverer of spec 4.7, which is not in src/. -/
def nuniqueInclNull {α : Type} [DecidableEq α] (vs : List (Option α)) : ℕ :=
  vs.dedup.length

/-- Modelled from the spec: the null count of a column as used by the
candidate-key rule (rules table D4.1). -/
def colNullCount {α : Type} [DecidableEq α] (vs : List (Option α)) : ℕ :=
  vs.count none

/-- Modelled from the spec: the single-column candidate-key test of
spec 4.7 / rules table D4.1 (zero nulls and nunique including null equal to
the row count), mirroring the pandas pseudocode. -/
def isCandidateKeyCol {α : Type} [DecidableEq α] (vs : List (Option α)) : Bool :=
  (colNullCount vs == 0) && (nuniqueInclNull vs == vs.length)

/-- Modelled from the spec: uniqueness_percentage of a candidate key
(spec 4.7, reported even for non-qualifying candidates). -/
def uniquenessPercentage {α : Type} [DecidableEq α] (vs : List (Option α)) : ℚ :=
  100 * (nuniqueInclNull vs : ℚ) / (vs.length : ℚ)

/-- Recommendation values of a candidate key (types/profiling.ts line 117). -/
inductive KeyRec where
  | primaryKey
  | candidateKey
  | nearUnique
deriving DecidableEq

/-- Modelled from the spec: the qualifying single columns of a batch under
the 4.7 candidate-key test. -/
def qualifyingColumns {α : Type} [DecidableEq α]
    (cols : List (String × List (Option α))) : List (String × List (Option α)) :=
  cols.filter (fun c => isCandidateKeyCol c.2)

/-- Modelled from the spec: the recommendation the 4.7 Candidate Key
Discoverer attaches to a single column: primary_key for the sole qualifying
column, candidate_key for other qualifying columns, near_unique at
uniqueness at least 95 percent that falls short of a key, nothing
otherwise. -/
def recommendationFor {α : Type} [DecidableEq α]
    (cols : List (String × List (Option α))) (c : String × List (Option α)) :
    Option KeyRec :=
  if isCandidateKeyCol c.2 then
    if (qualifyingColumns cols).length = 1 then some KeyRec.primaryKey
    else some KeyRec.candidateKey
  else if 95 ≤ uniquenessPercentage c.2 ∧
      (uniquenessPercentage c.2 < 100 ∨ 0 < colNullCount c.2) then
    some KeyRec.nearUnique
  else none

/-- Modelled from the spec: the Column Quality Grader of spec 4.6 / rules
table C6.3 is not in src/.  Rates are ratios in [0,1]:
Gold needs null_rate at most 0.01 and distinctness within [0.05, 0.95];
Silver needs null_rate at most 0.05 and distinctness within [0.02, 0.98];
everything else is Bronze. -/
def gradeColumn (nullRate distinctness : ℚ) : Grade :=
  if nullRate ≤ 1/100 ∧ 5/100 ≤ distinctness ∧ distinctness ≤ 95/100 then
    Grade.gold
  else if nullRate ≤ 5/100 ∧ 2/100 ≤ distinctness ∧ distinctness ≤ 98/100 then
    Grade.silver
  else Grade.bronze

/-- Ordering of grades with Bronze lowest, used to state monotonicity. -/
def gradeRank : Grade → ℕ
  | Grade.bronze => 0
  | Grade.silver => 1
  | Grade.gold => 2

/-- Modelled from the spec: the PII risk bucketing of spec 4.5 / rules
table D5.2 applied to a confidence score in [0,1]; the PII Detector that
assigns PIIDetection.risk_level is not in src/.  Low below 0.2, Medium from
0.2 to 0.5 inclusive, High above 0.5. -/
def piiRiskLevel (s : ℚ) : Risk :=
  if s < 1/5 then Risk.low
  else if s ≤ 1/2 then Risk.medium
  else Risk.high

/-- Outcome of one declared foreign-key check (spec 4.8): either skipped
because a declared column is absent from the batch, or evaluated with its
missing count and match rate. -/
inductive RICheck where
  | notEvaluated
  | evaluated (missingCount : ℕ) (matchRate : ℚ)
deriving DecidableEq

/-- Column lookup by name in a batch, `none` when the batch has no column
of that name. -/
def lookupColumn {α : Type} (batch : List (String × List (Option α)))
    (name : String) : Option (List (Option α)) :=
  (batch.find? (fun c => c.1 == name)).map (fun c => c.2)

/-- Modelled from the spec: the orphan count of the Referential Integrity
Checker (spec 4.8 / rules table D6), by direct recursion over the child
column: null child cells are skipped, a non-null child value adds one when
it does not occur in the parent column. -/
def fkMissingCount {α : Type} [DecidableEq α] :
    List (Option α) → List (Option α) → ℕ
  | [], _ => 0
  | none :: rest, parent => fkMissingCount rest parent
  | some v :: rest, parent =>
      (if some v ∈ parent then 0 else 1) + fkMissingCount rest parent

/-- Modelled from the spec: match_rate = 1 - missing_count / non-null child
count (spec 4.8). -/
def fkMatchRate {α : Type} [DecidableEq α]
    (child parent : List (Option α)) : ℚ :=
  1 - (fkMissingCount child parent : ℚ) / ((colNonNull child).length : ℚ)

/-- Modelled from the spec: one declared foreign-key pair checked by the
4.8 Referential Integrity Checker, which is not in src/.  When a declared
column is missing from the batch the pair is reported not evaluated instead
of failing. -/
def checkForeignKey {α : Type} [DecidableEq α]
    (batch : List (String × List (Option α))) (childName parentName : String) :
    RICheck :=
  match lookupColumn batch childName, lookupColumn batch parentName with
  | some child, some parent =>
      RICheck.evaluated (fkMissingCount child parent) (fkMatchRate child parent)
  | _, _ => RICheck.notEvaluated

/- Numeric Analyzer (spec 4.3), modelled from the spec because the backend
is not in src/.  Quantiles use the pandas/numpy linear interpolation the
rules table invokes (C8.7: df[col].quantile), and the |z| > 3 fallback is
expressed by squaring, which avoids the square root while agreeing with it
wherever the standard deviation is defined. -/

/-- Ordered insertion over rationals, the helper of sortAsc. -/
def insertSorted (x : ℚ) : List ℚ → List ℚ
  | [] => [x]
  | y :: ys => if x ≤ y then x :: y :: ys else y :: insertSorted x ys

/-- Insertion sort of a rational column, ascending. -/
def sortAsc (l : List ℚ) : List ℚ := l.foldr insertSorted []

/-- Modelled from the spec: the linear-interpolation quantile of the 4.3
Numeric Analyzer, at position p * (n - 1) in the sorted values. -/
def quantileLin (l : List ℚ) (p : ℚ) : ℚ :=
  let s := sortAsc l
  let n := s.length
  if n = 0 then 0
  else
    let h : ℚ := p * ((n : ℚ) - 1)
    let i : ℕ := (⌊h⌋).toNat
    let lo := s.getD i 0
    let hi := s.getD (min (i + 1) (n - 1)) 0
    lo + (h - (⌊h⌋ : ℚ)) * (hi - lo)

/-- Modelled from the spec: Q1 of the 4.3 Numeric Analyzer. -/
def q1Of (l : List ℚ) : ℚ := quantileLin l (1/4)

/-- Modelled from the spec: Q3 of the 4.3 Numeric Analyzer. -/
def q3Of (l : List ℚ) : ℚ := quantileLin l (3/4)

/-- Modelled from the spec: the interquartile range Q3 - Q1. -/
def iqrOf (l : List ℚ) : ℚ := q3Of l - q1Of l

/-- Mean of a rational column (0 on an empty column under the rational
division convention). -/
def meanOf (l : List ℚ) : ℚ := l.sum / (l.length : ℚ)

/-- Modelled from the spec: the population variance of the 4.3 Numeric
Analyzer. -/
def popVariance (l : List ℚ) : ℚ :=
  (l.map (fun x => (x - meanOf l) ^ 2)).sum / (l.length : ℚ)

/-- Modelled from the spec: outlier_count of the 4.3 Numeric Analyzer:
values outside the IQR fences Q1 - 1.5*IQR and Q3 + 1.5*IQR, falling back
to |z| > 3 (stated as a squared comparison against 9 times the variance)
when the IQR is zero. -/
def outlierCount (l : List ℚ) : ℕ :=
  if iqrOf l = 0 then
    l.countP (fun x => decide ((x - meanOf l) ^ 2 > 9 * popVariance l))
  else
    l.countP (fun x =>
      decide (x < q1Of l - 3/2 * iqrOf l ∨ x > q3Of l + 3/2 * iqrOf l))

/-- Modelled from the spec: the Dataset Aggregator of spec 4.9 is not in
src/.  overall_completeness is the mean of the column
completeness_percentage values and overall_quality_score the mean of the
column quality_score values; the grade buckets the overall score at
90 / 70 and pii_risk_score is left to the caller's PII rollup. -/
def aggregateDatasetQuality (cols : List ColumnQualityMetrics)
    (piiRisk : ℚ) : DatasetQualityMetrics :=
  let completeness :=
    (cols.map (fun c => c.completeness_percentage)).sum / (cols.length : ℚ)
  let score := (cols.map (fun c => c.quality_score)).sum / (cols.length : ℚ)
  { overall_completeness := completeness
    overall_quality_score := score
    quality_grade :=
      if 90 ≤ score then Grade.gold
      else if 70 ≤ score then Grade.silver
      else Grade.bronze
    pii_risk_score := piiRisk }

/-- The mean of the backend quality scores of a part_002 dataset's columns
(absent quality_metrics blocks contribute their JS undefined as 0), used to
state what the Dashboard score is not. -/
def meanColumnQualityScore (d : ProfDataset) : ℚ :=
  (d.columns.map (fun c =>
    match c.quality_metrics with
    | some m => m.quality_score
    | none => 0)).sum / (d.columns.length : ℚ)

/- Concrete inputs used by the counterexamples and witnesses below. -/

/-- A dataset without a backend quality block whose single column is 15
percent null, so the part_002 fallback computes the score 85. -/
def dGradeBoundary : ProfDataset := ⟨"boundary", 1, 1, [⟨"a", 15, none⟩], none⟩

/-- A dataset without a backend quality block whose single column is fully
complete (null_percentage 0) but carries the backend column quality score
40. -/
def dScoreVsCompleteness : ProfDataset :=
  ⟨"mismatch", 1, 1, [⟨"a", 0, some ⟨100, 0, 0, 0, 40, Grade.bronze⟩⟩], none⟩

/-- A Dashboard.tsx dataset with an empty column list. -/
def dEmptyDash : DashDataset := ⟨"empty", 0, 0, 0, [], "2025-11-26"⟩

/-- A Math.random stream whose sixth draw is one half and whose other draws
are zero: with 100 rows, the first generated mock column gets
uniqueCount 80 and distinctCount 50. -/
def sUniqueBeatsDistinct : ℕ → ℚ := fun k => if k = 5 then 1/2 else 0

/-- The all-zeros Math.random stream. -/
def sZero : ℕ → ℚ := fun _ => 0

/-- The all-halves Math.random stream. -/
def sHalf : ℕ → ℚ := fun _ => 1/2

/-- A fallback MockColumn handed to List.getD (never selected in the
statements below, which index into non-empty column lists). -/
def mockColDefault : MockColumn := ⟨"", "VARCHAR", 0, 0, 0, 0, 65, false, false⟩

/-- Scenario E batch of the spec: a child column of 10 non-null values, two
of which (98 and 99) have no match in the parent column. -/
def batchScenarioE : List (String × List (Option ℕ)) :=
  [("customer_id",
      [some 1, some 2, some 3, some 4, some 5, some 6, some 7, some 8,
       some 98, some 99]),
   ("id", [some 1, some 2, some 3, some 4, some 5, some 6, some 7, some 8])]

/-- The child column of the Scenario E batch. -/
def childScenarioE : List (Option ℕ) :=
  [some 1, some 2, some 3, some 4, some 5, some 6, some 7, some 8,
   some 98, some 99]

/-- The parent column of the Scenario E batch. -/
def parentScenarioE : List (Option ℕ) :=
  [some 1, some 2, some 3, some 4, some 5, some 6, some 7, some 8]

/- Helper lemmas shared by the claim theorems. -/

/-- The reduce-accumulated completeness sum of the Dashboard fallback
equals the sum over the mapped column list. -/
theorem foldl_completeness_sum (l : List ProfColumn) (a : ℚ) :
    l.foldl (fun sum col => sum + (100 - col.null_percentage)) a
      = a + (l.map (fun col => 100 - col.null_percentage)).sum := by
  induction l generalizing a with
  | nil => simp
  | cons x xs ih => simp [List.foldl_cons, ih, add_assoc]

/-- The recursive orphan counter agrees with the countP formulation over
the non-null child values. -/
theorem fkMissingCount_eq_countP {α : Type} [DecidableEq α]
    (child parent : List (Option α)) :
    fkMissingCount child parent
      = (colNonNull child).countP (fun v => decide (some v ∉ parent)) := by
  induction child with
  | nil => rfl
  | cons o rest ih =>
    cases o with
    | none => simpa [fkMissingCount, colNonNull] using ih
    | some v =>
      by_cases hv : some v ∈ parent
      · simp [fkMissingCount, colNonNull, List.countP_cons, ih, hv]
      · simp [fkMissingCount, colNonNull, List.countP_cons, ih, hv]
        omega

/- Claim theorems. -/

/-- C1: the claim says the overall grade is Gold from 90 up and Silver on
70-89.  The part_002 Dashboard fallback and the wireframe grade an overall
score of 85 as Silver, as the claim demands, but getQualityGrade of
Dashboard.tsx (lines 109-113) grades the same score Gold: its Gold cutoff
is 85, diverging from the repository's requirements document (Gold at 90
or above) and from the other two grading sites. -/
theorem c1_grade_threshold_bug :
    calculateQualityScore2 dGradeBoundary = 85 ∧
    getQualityGrade2 dGradeBoundary = Grade.silver ∧
    wireframeGrade 85 = Grade.silver ∧
    getQualityGrade 85 = Grade.gold := by
  have hscore : calculateQualityScore2 dGradeBoundary = 85 := by
    norm_num [calculateQualityScore2, fallbackScore, dGradeBoundary, jsRound]
  refine ⟨hscore, ?_, rfl, rfl⟩
  have hunfold : getQualityGrade2 dGradeBoundary =
      (if calculateQualityScore2 dGradeBoundary ≥ 90 then Grade.gold
       else if calculateQualityScore2 dGradeBoundary ≥ 70 then Grade.silver
       else Grade.bronze) := rfl
  rw [hunfold, hscore]
  norm_num

/-- C2 counterexample: the part_002 Dashboard computes the quality score of
a dataset without a backend quality block as the mean of the columns'
completeness values, not as the mean of their quality_score values: on a
dataset whose single column is fully complete but has backend quality
score 40, the computed score is 100 while the mean column quality score
is 40. -/
theorem c2_score_is_completeness_mean :
    calculateQualityScore2 dScoreVsCompleteness = 100 ∧
    meanColumnQualityScore dScoreVsCompleteness = 40 ∧
    (calculateQualityScore2 dScoreVsCompleteness : ℚ) ≠
      meanColumnQualityScore dScoreVsCompleteness := by
  have h1 : calculateQualityScore2 dScoreVsCompleteness = 100 := by
    norm_num [calculateQualityScore2, fallbackScore, dScoreVsCompleteness, jsRound]
  have h2 : meanColumnQualityScore dScoreVsCompleteness = 40 := by
    norm_num [meanColumnQualityScore, dScoreVsCompleteness]
  refine ⟨h1, h2, ?_⟩
  rw [h1, h2]
  norm_num

/-- C2 as amended: without a backend quality block and with at least one
column, the part_002 Dashboard score is the rounded mean of the columns'
completeness values (100 - null_percentage); the dataset aggregator
modelled from spec 4.9 computes overall_completeness as the mean of the
column completeness_percentage values and overall_quality_score as the
mean of the column quality_score values. -/
theorem c2_dataset_aggregation (d : ProfDataset)
    (cols : List ColumnQualityMetrics) (r : ℚ)
    (hq : d.dataset_quality = none) (hc : d.columns ≠ []) :
    calculateQualityScore2 d =
      jsRound ((d.columns.map (fun col => 100 - col.null_percentage)).sum /
        (d.columns.length : ℚ)) ∧
    (aggregateDatasetQuality cols r).overall_completeness =
      (cols.map (fun c => c.completeness_percentage)).sum / (cols.length : ℚ) ∧
    (aggregateDatasetQuality cols r).overall_quality_score =
      (cols.map (fun c => c.quality_score)).sum / (cols.length : ℚ) := by
  refine ⟨?_, rfl, rfl⟩
  rw [calculateQualityScore2, hq, fallbackScore,
    if_neg (fun h0 => hc (List.length_eq_zero.mp h0)), foldl_completeness_sum,
    zero_add]

/-- C2 witness: the amended statement instantiated at the concrete dataset
of the counterexample. -/
theorem c2_dataset_aggregation_witness :
    dScoreVsCompleteness.dataset_quality = none ∧
    dScoreVsCompleteness.columns ≠ [] ∧
    (calculateQualityScore2 dScoreVsCompleteness =
      jsRound ((dScoreVsCompleteness.columns.map
          (fun col => 100 - col.null_percentage)).sum /
        (dScoreVsCompleteness.columns.length : ℚ)) ∧
    (aggregateDatasetQuality [] 0).overall_completeness =
      (([] : List ColumnQualityMetrics).map
        (fun c => c.completeness_percentage)).sum /
        (([] : List ColumnQualityMetrics).length : ℚ) ∧
    (aggregateDatasetQuality [] 0).overall_quality_score =
      (([] : List ColumnQualityMetrics).map (fun c => c.quality_score)).sum /
        (([] : List ColumnQualityMetrics).length : ℚ)) :=
  ⟨rfl, by decide,
    c2_dataset_aggregation dScoreVsCompleteness [] 0 rfl (by decide)⟩

/-- C3: the claim (with spec 4.5 and rules table D5.2) buckets a PII
confidence score of exactly 0.2 as Medium, but the risk label the UI
computes from the equivalent 0-100 score (part_002 line 241, matching the
EntityView colour cutoffs) uses a strict comparison and labels exactly 20
as Low.  The spec-modelled bucketing gives Medium at exactly one fifth. -/
theorem c3_risk_boundary_bug :
    uiPIIRiskLabel 20 = Risk.low ∧ piiRiskLevel (1/5) = Risk.medium := by
  refine ⟨rfl, ?_⟩
  norm_num [piiRiskLevel]

/-- C4 counterexample: the mock profiling simulator draws uniqueCount from
0.6-1.0 of the row count and distinctCount independently from 0.5-0.9 of
it, so a produced profile can violate unique_count less-or-equal
distinct_count: under the exhibited draws its first column has
distinctCount 50 but uniqueCount 80. -/
theorem c4_mock_violates_invariant :
    ((generateProfileData "customers" 100
        sUniqueBeatsDistinct).columns.getD 0 mockColDefault).distinctCount = 50 ∧
    ((generateProfileData "customers" 100
        sUniqueBeatsDistinct).columns.getD 0 mockColDefault).uniqueCount = 80 := by
  have hcols : (generateProfileData "customers" 100
      sUniqueBeatsDistinct).columns.getD 0 mockColDefault
        = mkMockColumn 100 sUniqueBeatsDistinct 0 := by
    have h0 : (⌊sUniqueBeatsDistinct 0 * 15⌋).toNat + 5 = 5 := by
      norm_num [sUniqueBeatsDistinct]
    simp [generateProfileData, h0, List.range_succ_eq_map]
  rw [hcols]
  constructor
  · norm_num [mkMockColumn, sUniqueBeatsDistinct]
  · norm_num [mkMockColumn, sUniqueBeatsDistinct]

/-- C4 as amended: for the Column Statistics Analyzer modelled from
spec 4.2 the invariant does hold on every column: unique_count is at most
distinct_count, distinct_count is at most total_count, and duplicate_count
equals total_count minus distinct_count.  (The ui-mock simulator, being
pure randomness, guarantees none of this, as the counterexample shows.) -/
theorem c4_column_count_invariants {α : Type} [DecidableEq α]
    (vs : List (Option α)) :
    colUniqueCount vs ≤ colDistinctCount vs ∧
    colDistinctCount vs ≤ colTotalCount vs ∧
    colDuplicateCount vs = colTotalCount vs - colDistinctCount vs := by
  refine ⟨?_, ?_, rfl⟩
  · exact List.length_filter_le _ _
  · exact le_trans (List.dedup_sublist (colNonNull vs)).length_le
      (List.length_filterMap_le id vs)

/-- C5: under the Candidate Key Discoverer modelled from spec 4.7 and rule
D4.1, a column is a single-column candidate key exactly when it has zero
nulls and its distinct count including null equals the row count, and a
column recommended as primary_key has zero nulls and uniqueness 100. -/
theorem c5_candidate_key_iff {α : Type} [DecidableEq α]
    (cols : List (String × List (Option α))) (name : String)
    (vs : List (Option α)) (hrows : 0 < vs.length) :
    (isCandidateKeyCol vs = true ↔
      (colNullCount vs = 0 ∧ nuniqueInclNull vs = vs.length)) ∧
    (recommendationFor cols (name, vs) = some KeyRec.primaryKey →
      colNullCount vs = 0 ∧ uniquenessPercentage vs = 100) := by
  have hiff : isCandidateKeyCol vs = true ↔
      (colNullCount vs = 0 ∧ nuniqueInclNull vs = vs.length) := by
    simp [isCandidateKeyCol]
  refine ⟨hiff, fun hrec => ?_⟩
  have hkey : isCandidateKeyCol vs = true := by
    by_contra hk
    rw [recommendationFor] at hrec
    rw [if_neg hk] at hrec
    by_cases hnear : 95 ≤ uniquenessPercentage vs ∧
        (uniquenessPercentage vs < 100 ∨ 0 < colNullCount vs)
    · rw [if_pos hnear] at hrec
      exact KeyRec.noConfusion (Option.some.inj hrec)
    · rw [if_neg hnear] at hrec
      exact Option.noConfusion hrec
  obtain ⟨hnull, huniq⟩ := hiff.mp hkey
  refine ⟨hnull, ?_⟩
  rw [uniquenessPercentage, huniq]
  have hne : (vs.length : ℚ) ≠ 0 := by exact_mod_cast hrows.ne'
  field_simp

/-- C6: under the grading rule modelled from spec 4.6 / rules table C6.3,
the column grade is monotone in the null rate at fixed distinctness:
lowering the null rate never lowers the grade's rank. -/
theorem c6_grade_monotone (nr nrLower d : ℚ) (h : nrLower ≤ nr) :
    gradeRank (gradeColumn nr d) ≤ gradeRank (gradeColumn nrLower d) := by
  by_cases hA : nr ≤ 1/100 ∧ 5/100 ≤ d ∧ d ≤ 95/100
  · have hA2 : nrLower ≤ 1/100 ∧ 5/100 ≤ d ∧ d ≤ 95/100 :=
      ⟨le_trans h hA.1, hA.2⟩
    rw [gradeColumn, gradeColumn, if_pos hA, if_pos hA2]
  · by_cases hB : nr ≤ 5/100 ∧ 2/100 ≤ d ∧ d ≤ 98/100
    · have hB2 : nrLower ≤ 5/100 ∧ 2/100 ≤ d ∧ d ≤ 98/100 :=
        ⟨le_trans h hB.1, hB.2⟩
      rw [gradeColumn, gradeColumn, if_neg hA, if_pos hB]
      by_cases hA2 : nrLower ≤ 1/100 ∧ 5/100 ≤ d ∧ d ≤ 95/100
      · rw [if_pos hA2]
        simp [gradeRank]
      · rw [if_neg hA2, if_pos hB2]
    · rw [gradeColumn, if_neg hA, if_neg hB]
      exact Nat.zero_le _

/-- C6 witness: the monotonicity theorem at the concrete null rates 1 and
0 with distinctness one half. -/
theorem c6_grade_monotone_witness :
    (0 : ℚ) ≤ 1 ∧
    gradeRank (gradeColumn 1 (1/2)) ≤ gradeRank (gradeColumn 0 (1/2)) :=
  ⟨by norm_num, c6_grade_monotone 1 0 (1/2) (by norm_num)⟩

/-- The Scenario A column of the spec: id values 1 to 3 with no nulls,
presented as the sole column of its batch. -/
def colsScenarioA : List (String × List (Option ℕ)) :=
  [("id", [some 1, some 2, some 3])]

/-- C5 witness: the candidate-key theorem at the Scenario A column. -/
theorem c5_candidate_key_iff_witness :
    0 < ([some 1, some 2, some 3] : List (Option ℕ)).length ∧
    ((isCandidateKeyCol ([some 1, some 2, some 3] : List (Option ℕ)) = true ↔
      (colNullCount ([some 1, some 2, some 3] : List (Option ℕ)) = 0 ∧
        nuniqueInclNull ([some 1, some 2, some 3] : List (Option ℕ)) =
          ([some 1, some 2, some 3] : List (Option ℕ)).length)) ∧
    (recommendationFor colsScenarioA ("id", [some 1, some 2, some 3]) =
        some KeyRec.primaryKey →
      colNullCount ([some 1, some 2, some 3] : List (Option ℕ)) = 0 ∧
        uniquenessPercentage ([some 1, some 2, some 3] : List (Option ℕ)) = 100)) :=
  ⟨by decide,
    c5_candidate_key_iff colsScenarioA "id" [some 1, some 2, some 3] (by decide)⟩

/-- C7 counterexample: two runs of the mock profiling simulator that draw
different Math.random values on the same inputs produce different
profiles: the all-zeros draw stream yields entity quality score 65 and the
all-halves stream yields 80, so the outputs of the two runs differ. -/
theorem c7_two_runs_differ :
    (generateProfileData "customers" 100 sZero).qualityScore = 65 ∧
    (generateProfileData "customers" 100 sHalf).qualityScore = 80 ∧
    generateProfileData "customers" 100 sZero ≠
      generateProfileData "customers" 100 sHalf := by
  have h1 : (generateProfileData "customers" 100 sZero).qualityScore = 65 := by
    norm_num [generateProfileData, sZero]
  have h2 : (generateProfileData "customers" 100 sHalf).qualityScore = 80 := by
    norm_num [generateProfileData, sHalf]
  refine ⟨h1, h2, fun heq => ?_⟩
  rw [heq, h2] at h1
  norm_num at h1

/-- C7 as amended: two runs of the simulator that consume identical draws
coincide, so the output is a function of the batch inputs and the drawn
randomness alone; the nondeterminism of the claim's two-run statement is
exactly the fresh Math.random draws of each run. -/
theorem c7_deterministic_given_draws (entityName : String) (rowCount : ℕ)
    (s1 s2 : ℕ → ℚ) (h : ∀ i, s1 i = s2 i) :
    generateProfileData entityName rowCount s1 =
      generateProfileData entityName rowCount s2 := by
  have hs : s1 = s2 := funext h
  rw [hs]

/-- C7 witness: the determinism theorem applied to two syntactically
different presentations of the all-zeros stream. -/
theorem c7_deterministic_given_draws_witness :
    generateProfileData "customers" 100 sZero =
      generateProfileData "customers" 100 (fun k => if k = 5 then 0 else 0) :=
  c7_deterministic_given_draws "customers" 100 sZero
    (fun k => if k = 5 then 0 else 0) (fun i => by simp [sZero])

/-- C8: for the Referential Integrity Checker modelled from spec 4.8, a
declared pair whose parent column is absent from the batch is reported not
evaluated rather than an error, and an evaluated pair reports
missing_count as the number of non-null child values absent from the
parent's value set and match_rate as 1 minus missing_count over the
non-null child count. -/
theorem c8_referential_integrity {α : Type} [DecidableEq α]
    (batch : List (String × List (Option α))) (childName parentName : String) :
    (lookupColumn batch parentName = none →
      checkForeignKey batch childName parentName = RICheck.notEvaluated) ∧
    (∀ child parent, lookupColumn batch childName = some child →
      lookupColumn batch parentName = some parent →
      checkForeignKey batch childName parentName =
        RICheck.evaluated
          ((colNonNull child).countP (fun v => decide (some v ∉ parent)))
          (1 - (((colNonNull child).countP
                (fun v => decide (some v ∉ parent))) : ℚ) /
            ((colNonNull child).length : ℚ))) := by
  constructor
  · intro hp
    rw [checkForeignKey, hp]
    cases lookupColumn batch childName <;> rfl
  · intro child parent hc hp
    rw [checkForeignKey, hc, hp]
    simp only [fkMatchRate, fkMissingCount_eq_countP]

/-- C8 witness: the referential-integrity theorem at the Scenario E batch,
whose parent column resolves and whose child column has two orphans. -/
theorem c8_referential_integrity_witness :
    lookupColumn batchScenarioE "customer_id" = some childScenarioE ∧
    lookupColumn batchScenarioE "id" = some parentScenarioE ∧
    checkForeignKey batchScenarioE "customer_id" "id" =
      RICheck.evaluated
        ((colNonNull childScenarioE).countP
          (fun v => decide (some v ∉ parentScenarioE)))
        (1 - (((colNonNull childScenarioE).countP
              (fun v => decide (some v ∉ parentScenarioE))) : ℚ) /
          ((colNonNull childScenarioE).length : ℚ)) :=
  ⟨rfl, rfl,
    (c8_referential_integrity batchScenarioE "customer_id" "id").2
      childScenarioE parentScenarioE rfl rfl⟩

/-- C9: for the Numeric Analyzer modelled from spec 4.3, the outlier count
is the number of values outside the IQR fences Q1 - 1.5*IQR and
Q3 + 1.5*IQR, with the squared |z| > 3 comparison as fallback when the IQR
is zero; and on the Scenario C column [1,2,3,4,100] the quartiles are
Q1 = 2 and Q3 = 4, the upper fence is 7, and exactly one value (100) is an
outlier. -/
theorem c9_iqr_outliers :
    (q1Of [1, 2, 3, 4, 100] = 2 ∧
     q3Of [1, 2, 3, 4, 100] = 4 ∧
     q3Of [1, 2, 3, 4, 100] + 3/2 * iqrOf [1, 2, 3, 4, 100] = 7 ∧
     outlierCount [1, 2, 3, 4, 100] = 1) ∧
    ∀ l : List ℚ, outlierCount l =
      if iqrOf l = 0 then
        (l.filter (fun x => decide ((x - meanOf l) ^ 2 > 9 * popVariance l))).length
      else
        (l.filter (fun x =>
          decide (x < q1Of l - 3/2 * iqrOf l ∨ x > q3Of l + 3/2 * iqrOf l))).length := by
  constructor
  · refine ⟨?_, ?_, ?_, ?_⟩
    · norm_num [q1Of, quantileLin, sortAsc, insertSorted]
    · norm_num [q3Of, quantileLin, sortAsc, insertSorted,
        show ((3:ℤ)).toNat = 3 from rfl]
    · norm_num [iqrOf, q1Of, q3Of, quantileLin, sortAsc, insertSorted,
        show ((3:ℤ)).toNat = 3 from rfl]
    · norm_num [outlierCount, iqrOf, q1Of, q3Of, quantileLin, sortAsc,
        insertSorted, show ((3:ℤ)).toNat = 3 from rfl, meanOf, popVariance,
        List.countP_cons, List.countP_nil]
  · intro l
    rw [outlierCount]
    split_ifs <;> rw [List.countP_eq_length_filter]

/-- C10: the Dashboard.tsx quality-score computation always produces a
value (its division is reached only with a nonzero column count, so no
division by zero occurs), and on a dataset with no columns the guard
returns 0, which getQualityGrade grades Bronze. -/
theorem c10_empty_dataset_guard (d : DashDataset) :
    (calculateQualityScore d).isSome = true ∧
    (d.columns = [] →
      calculateQualityScore d = some 0 ∧ getQualityGrade 0 = Grade.bronze) := by
  constructor
  · rw [calculateQualityScore]
    by_cases h : d.columns.length = 0
    · rw [if_pos h]
      rfl
    · rw [if_neg h, jsDiv,
        if_neg (fun hq => h (by exact_mod_cast hq))]
      rfl
  · intro hcols
    refine ⟨?_, by norm_num [getQualityGrade]⟩
    rw [calculateQualityScore, if_pos (by rw [hcols]; rfl)]

/-- C10 witness: the guard theorem at a concrete dataset with an empty
column list. -/
theorem c10_empty_dataset_guard_witness :
    dEmptyDash.columns = [] ∧
    (calculateQualityScore dEmptyDash = some 0 ∧
      getQualityGrade 0 = Grade.bronze) :=
  ⟨rfl, (c10_empty_dataset_guard dEmptyDash).2 rfl⟩
